import Mathlib

/-!
Verification development for the connectify messaging and notification core.

The definitions below are a shallow embedding of the Python source:

* `messaging/models.py` — `MessageStatus.mark_delivered`, `MessageStatus.mark_read`,
  the `create_message_status_records_optimized` post-save signal;
* `messaging/consumers.py` — `ChatConsumer.connect`, `handle_message_read`,
  `handle_message_delivered`, `mark_message_read`, `mark_message_delivered`;
* `messaging/views.py` / `messaging/serializers.py` — direct-chat creation and the
  HTTP `mark_message_read` / `mark_message_delivered` endpoints;
* `notifications/models.py`, `notifications/utils.py`, `notifications/consumers.py`,
  `notifications/views.py` — notification dispatch, preferences and read-marking.

Database tables are lists of records, timestamps are natural numbers, and user,
chat, message and notification identifiers are natural numbers.
-/

namespace Connectify

/-- The `status` column of a `MessageStatus` row (`STATUS_CHOICES` in
`messaging/models.py`). -/
inductive DeliveryState
  | sent
  | delivered
  | read
deriving DecidableEq

/-- Position of a state along the `sent → delivered → read` chain. -/
def DeliveryState.rank : DeliveryState → Nat
  | .sent => 0
  | .delivered => 1
  | .read => 2

/-- A row of the `message_statuses` table: one `(message, user)` pair with its
delivery status and the two nullable timestamps. -/
structure MessageStatus where
  messageId : Nat
  userId : Nat
  status : DeliveryState
  delivered_at : Option Nat
  read_at : Option Nat
deriving DecidableEq

/-- Embeds `MessageStatus.mark_delivered` (messaging/models.py): only when the current
status is `sent`, set status to `delivered` and stamp `delivered_at`. -/
def MessageStatus.mark_delivered (now : Nat) (s : MessageStatus) : MessageStatus :=
  if s.status = DeliveryState.sent then
    { s with status := DeliveryState.delivered, delivered_at := some now }
  else s

/-- Embeds `MessageStatus.mark_read` (messaging/models.py): only when the current status
is `sent` or `delivered`, set status to `read`, stamp `read_at`, and backfill
`delivered_at` from `read_at` when it is absent. -/
def MessageStatus.mark_read (now : Nat) (s : MessageStatus) : MessageStatus :=
  if s.status = DeliveryState.sent ∨ s.status = DeliveryState.delivered then
    { s with
        status := DeliveryState.read,
        read_at := some now,
        delivered_at := if s.delivered_at = none then some now else s.delivered_at }
  else s

/-- The reachable-state invariant of a status row: rows start as
`⟨sent, none, none⟩` and are only mutated by `mark_delivered` / `mark_read`,
so the timestamps are exactly determined by how far the status has advanced. -/
def MessageStatus.WF (s : MessageStatus) : Prop :=
  (s.status = DeliveryState.sent → s.delivered_at = none ∧ s.read_at = none) ∧
  (s.status = DeliveryState.delivered → s.delivered_at ≠ none ∧ s.read_at = none) ∧
  (s.status = DeliveryState.read → s.delivered_at ≠ none ∧ s.read_at ≠ none)

instance (s : MessageStatus) : Decidable s.WF := by
  unfold MessageStatus.WF
  infer_instance

/-- A freshly created status row (`get_or_create` default / bulk create):
status `sent`, no timestamps. -/
def MessageStatus.initial (mid uid : Nat) : MessageStatus :=
  ⟨mid, uid, DeliveryState.sent, none, none⟩

theorem initial_WF (mid uid : Nat) : (MessageStatus.initial mid uid).WF := by
  refine ⟨fun _ => ⟨rfl, rfl⟩, fun h => ?_, fun h => ?_⟩ <;> simp [MessageStatus.initial] at h

/-- C1: for a status row of a recipient, `mark_delivered` changes the status only
from `sent`, `mark_read` only from `sent` or `delivered`, the status rank never
decreases, `delivered_at` and `read_at` are first-write-wins, marking read with
`delivered_at` absent backfills it to `read_at`, a second `mark_read` changes
nothing, and the reachable-state invariant is preserved. -/
theorem C1_message_status_forward_only (s : MessageStatus) (hWF : s.WF) (t t2 : Nat) :
    ((s.mark_delivered t).status ≠ s.status → s.status = DeliveryState.sent) ∧
    ((s.mark_read t).status ≠ s.status →
        s.status = DeliveryState.sent ∨ s.status = DeliveryState.delivered) ∧
    s.status.rank ≤ (s.mark_delivered t).status.rank ∧
    s.status.rank ≤ (s.mark_read t).status.rank ∧
    (∀ v, s.delivered_at = some v →
        (s.mark_delivered t).delivered_at = some v ∧ (s.mark_read t).delivered_at = some v) ∧
    (∀ v, s.read_at = some v →
        (s.mark_delivered t).read_at = some v ∧ (s.mark_read t).read_at = some v) ∧
    (s.delivered_at = none → (s.mark_read t).status = DeliveryState.read →
        (s.mark_read t).delivered_at = (s.mark_read t).read_at) ∧
    (s.mark_read t).mark_read t2 = s.mark_read t ∧
    (s.mark_delivered t).WF ∧ (s.mark_read t).WF := by
  obtain ⟨hs, hd, hr⟩ := hWF
  cases hst : s.status with
  | sent =>
    obtain ⟨hd0, hr0⟩ := hs hst
    simp [MessageStatus.mark_delivered, MessageStatus.mark_read, MessageStatus.WF,
      DeliveryState.rank, hst, hd0, hr0]
  | delivered =>
    obtain ⟨hd0, hr0⟩ := hd hst
    cases hda : s.delivered_at with
    | none => exact absurd hda hd0
    | some v =>
      simp [MessageStatus.mark_delivered, MessageStatus.mark_read, MessageStatus.WF,
        DeliveryState.rank, hst, hda, hr0]
  | read =>
    obtain ⟨hd0, hr0⟩ := hr hst
    cases hda : s.delivered_at with
    | none => exact absurd hda hd0
    | some v =>
      cases hra : s.read_at with
      | none => exact absurd hra hr0
      | some w =>
        simp [MessageStatus.mark_delivered, MessageStatus.mark_read, MessageStatus.WF,
          DeliveryState.rank, hst, hda, hra]

theorem C1_message_status_forward_only_witness :
    (MessageStatus.initial 1 2).WF ∧
    (((MessageStatus.initial 1 2).mark_delivered 5).status ≠
        (MessageStatus.initial 1 2).status →
      (MessageStatus.initial 1 2).status = DeliveryState.sent) ∧
    (((MessageStatus.initial 1 2).mark_read 5).status ≠ (MessageStatus.initial 1 2).status →
      (MessageStatus.initial 1 2).status = DeliveryState.sent ∨
        (MessageStatus.initial 1 2).status = DeliveryState.delivered) ∧
    (MessageStatus.initial 1 2).status.rank ≤
      ((MessageStatus.initial 1 2).mark_delivered 5).status.rank ∧
    (MessageStatus.initial 1 2).status.rank ≤
      ((MessageStatus.initial 1 2).mark_read 5).status.rank ∧
    (∀ v, (MessageStatus.initial 1 2).delivered_at = some v →
      (((MessageStatus.initial 1 2).mark_delivered 5).delivered_at = some v ∧
        ((MessageStatus.initial 1 2).mark_read 5).delivered_at = some v)) ∧
    (∀ v, (MessageStatus.initial 1 2).read_at = some v →
      (((MessageStatus.initial 1 2).mark_delivered 5).read_at = some v ∧
        ((MessageStatus.initial 1 2).mark_read 5).read_at = some v)) ∧
    ((MessageStatus.initial 1 2).delivered_at = none →
      ((MessageStatus.initial 1 2).mark_read 5).status = DeliveryState.read →
      ((MessageStatus.initial 1 2).mark_read 5).delivered_at =
        ((MessageStatus.initial 1 2).mark_read 5).read_at) ∧
    ((MessageStatus.initial 1 2).mark_read 5).mark_read 7 =
      (MessageStatus.initial 1 2).mark_read 5 ∧
    ((MessageStatus.initial 1 2).mark_delivered 5).WF ∧
    ((MessageStatus.initial 1 2).mark_read 5).WF :=
  ⟨by decide, C1_message_status_forward_only (MessageStatus.initial 1 2) (by decide) 5 7⟩

/-- A row of the `chats` table together with its `participants` many-to-many set
(`Chat` in messaging/models.py). -/
structure Chat where
  id : Nat
  is_group_chat : Bool
  participants : List Nat
deriving DecidableEq

/-- A row of the `messages` table (`Message` in messaging/models.py), restricted
to the columns the verified operations consult. -/
structure Message where
  id : Nat
  chatId : Nat
  senderId : Nat
deriving DecidableEq

/-- The messaging persistence store: the `chats`, `messages` and
`message_statuses` tables. -/
structure MessagingDB where
  chats : List Chat
  messages : List Message
  statuses : List MessageStatus
deriving DecidableEq

/-- Embeds `Chat.objects.get(id=chat_id)`-style lookup. -/
def MessagingDB.findChat (db : MessagingDB) (cid : Nat) : Option Chat :=
  db.chats.find? (fun c => c.id = cid)

/-- The `chat__participants=self.user` join condition on a message. -/
def MessagingDB.userInChatOf (db : MessagingDB) (u : Nat) (m : Message) : Bool :=
  match db.findChat m.chatId with
  | some c => c.participants.contains u
  | none => false

/-- Embeds `Message.objects.get(id=message_id, chat__participants=self.user)`:
`none` models `Message.DoesNotExist`. -/
def MessagingDB.getMessageForUser (db : MessagingDB) (mid u : Nat) : Option Message :=
  db.messages.find? (fun m => m.id = mid && db.userInChatOf u m)

/-- Embeds `MessageStatus.objects.get_or_create(message=message, user=self.user)`:
returns the row (existing, or freshly inserted with the model defaults) and the
possibly-extended store. -/
def MessagingDB.getOrCreateStatus (db : MessagingDB) (mid u : Nat) :
    MessageStatus × MessagingDB :=
  match db.statuses.find? (fun s => s.messageId = mid && s.userId = u) with
  | some s => (s, db)
  | none =>
      (MessageStatus.initial mid u,
        { db with statuses := db.statuses ++ [MessageStatus.initial mid u] })

/-- Embeds `status_record.save()`: write the mutated row back over the row with the
same `(message, user)` key. -/
def MessagingDB.saveStatus (db : MessagingDB) (s' : MessageStatus) : MessagingDB :=
  let rows := db.statuses.map fun s =>
    if s.messageId = s'.messageId && s.userId = s'.userId then s' else s
  { db with statuses := rows }

/-- Embeds `ChatConsumer.mark_message_read` (messaging/consumers.py): resolve the
message within the requester's chats, refuse the requester's own message, else
get-or-create the requester's status row and mark it read. -/
def ChatConsumer.mark_message_read (db : MessagingDB) (u now mid : Nat) :
    Bool × MessagingDB :=
  match db.getMessageForUser mid u with
  | none => (false, db)
  | some m =>
      if m.senderId = u then (false, db)
      else
        let p := db.getOrCreateStatus mid u
        (true, p.2.saveStatus (p.1.mark_read now))

/-- Embeds `ChatConsumer.mark_message_delivered` (messaging/consumers.py). -/
def ChatConsumer.mark_message_delivered (db : MessagingDB) (u now mid : Nat) :
    Bool × MessagingDB :=
  match db.getMessageForUser mid u with
  | none => (false, db)
  | some m =>
      if m.senderId = u then (false, db)
      else
        let p := db.getOrCreateStatus mid u
        (true, p.2.saveStatus (p.1.mark_delivered now))

/-- An outbound WebSocket frame. -/
inductive Frame
  | errorMsg (text : String)
  | statusUpdate (mid : Nat) (st : DeliveryState) (uid : Nat) (ts : Nat)
  | connectionEstablished (chatId : Nat) (userId : Nat)
  | markReadSuccess (nid : Nat)
deriving DecidableEq

/-- Where a frame is sent: `self.send` (requester only) or
`channel_layer.group_send` (the chat group). -/
inductive OutAction
  | toRequester (f : Frame)
  | toGroup (f : Frame)
deriving DecidableEq

/-- Embeds `ChatConsumer.handle_message_read` (messaging/consumers.py): missing id or a
failed mark produce an error frame to the requester; success broadcasts a
`read` status update to the chat group. -/
def ChatConsumer.handle_message_read (db : MessagingDB) (u now : Nat)
    (message_id : Option Nat) : List OutAction × MessagingDB :=
  match message_id with
  | none => ([OutAction.toRequester (Frame.errorMsg "Message ID is required")], db)
  | some mid =>
      let r := ChatConsumer.mark_message_read db u now mid
      if r.1 then
        ([OutAction.toGroup (Frame.statusUpdate mid DeliveryState.read u now)], r.2)
      else
        ([OutAction.toRequester (Frame.errorMsg "Failed to mark message as read")], r.2)

/-- Embeds `ChatConsumer.handle_message_delivered` (messaging/consumers.py): success
broadcasts a `delivered` status update; a failed mark produces no output at all
(the `if success:` block has no `else` branch). -/
def ChatConsumer.handle_message_delivered (db : MessagingDB) (u now : Nat)
    (message_id : Option Nat) : List OutAction × MessagingDB :=
  match message_id with
  | none => ([OutAction.toRequester (Frame.errorMsg "Message ID is required")], db)
  | some mid =>
      let r := ChatConsumer.mark_message_delivered db u now mid
      if r.1 then
        ([OutAction.toGroup (Frame.statusUpdate mid DeliveryState.delivered u now)], r.2)
      else ([], r.2)

/-- An HTTP response, reduced to the status classes the claims distinguish. -/
inductive HttpResp
  | ok (text : String)
  | badRequest (text : String)
  | serverError (text : String)
deriving DecidableEq

/-- The HTTP view `mark_message_read` (messaging/views.py): resolution failure
ends in the generic `except` branch (500), own message is a 400, otherwise the
requester's status row is created/updated and marked read. -/
def MessagingViews.mark_message_read (db : MessagingDB) (u now mid : Nat) :
    HttpResp × MessagingDB :=
  match db.getMessageForUser mid u with
  | none => (HttpResp.serverError "Error marking message as read", db)
  | some m =>
      if m.senderId = u then
        (HttpResp.badRequest "Cannot mark your own message as read", db)
      else
        let p := db.getOrCreateStatus mid u
        (HttpResp.ok "Message marked as read", p.2.saveStatus (p.1.mark_read now))

/-- The HTTP view `mark_message_delivered` (messaging/views.py). -/
def MessagingViews.mark_message_delivered (db : MessagingDB) (u now mid : Nat) :
    HttpResp × MessagingDB :=
  match db.getMessageForUser mid u with
  | none => (HttpResp.serverError "Error marking message as delivered", db)
  | some m =>
      if m.senderId = u then
        (HttpResp.badRequest "Cannot mark your own message as delivered", db)
      else
        let p := db.getOrCreateStatus mid u
        (HttpResp.ok "Message marked as delivered", p.2.saveStatus (p.1.mark_delivered now))

/-- A concrete store: users 1 and 2 share direct chat 1; message 10 in chat 1
was sent by user 1; no status rows yet. -/
def exDB : MessagingDB :=
  { chats := [⟨1, false, [1, 2]⟩], messages := [⟨10, 1, 1⟩], statuses := [] }

/-- A concrete store where message 10 in chat 1 was sent by user 2. -/
def exDB2 : MessagingDB :=
  { chats := [⟨1, false, [1, 2]⟩], messages := [⟨10, 1, 2⟩], statuses := [] }

/-- C3 fails as stated: user 2 sends `message_delivered` for the nonexistent
message 99, and the consumer emits no frame at all — in particular no error
frame reaches the requester. -/
theorem C3_counterexample :
    exDB.getMessageForUser 99 2 = none ∧
    ChatConsumer.handle_message_delivered exDB 2 0 (some 99) = ([], exDB) :=
  ⟨rfl, rfl⟩

/-- C3 (amended): when the referenced message does not resolve for the
requester or was sent by the requester, no `MessageStatus` row is created or
mutated and nothing is broadcast to the group; a `message_read` frame is
answered with an error frame to the requester only, while a
`message_delivered` frame produces no output at all. -/
theorem C3_amended_reject_paths (db : MessagingDB) (u now mid : Nat)
    (hfail : db.getMessageForUser mid u = none ∨
      ∃ m, db.getMessageForUser mid u = some m ∧ m.senderId = u) :
    ChatConsumer.handle_message_read db u now (some mid)
      = ([OutAction.toRequester (Frame.errorMsg "Failed to mark message as read")], db) ∧
    ChatConsumer.handle_message_delivered db u now (some mid) = ([], db) := by
  rcases hfail with h | ⟨m, hm, hs⟩
  · simp [ChatConsumer.handle_message_read, ChatConsumer.handle_message_delivered,
      ChatConsumer.mark_message_read, ChatConsumer.mark_message_delivered, h]
  · simp [ChatConsumer.handle_message_read, ChatConsumer.handle_message_delivered,
      ChatConsumer.mark_message_read, ChatConsumer.mark_message_delivered, hm, hs]

theorem C3_amended_reject_paths_witness :
    (exDB.getMessageForUser 99 2 = none ∨
      ∃ m, exDB.getMessageForUser 99 2 = some m ∧ m.senderId = 2) ∧
    (ChatConsumer.handle_message_read exDB 2 0 (some 99)
      = ([OutAction.toRequester (Frame.errorMsg "Failed to mark message as read")], exDB) ∧
    ChatConsumer.handle_message_delivered exDB 2 0 (some 99) = ([], exDB)) :=
  ⟨Or.inl rfl, C3_amended_reject_paths exDB 2 0 99 (Or.inl rfl)⟩

/-- The status rows belonging to users other than `u`. -/
def statusRowsOfOthers (db : MessagingDB) (u : Nat) : List MessageStatus :=
  db.statuses.filter (fun s => s.userId ≠ u)

theorem mark_read_userId (s : MessageStatus) (t : Nat) :
    (s.mark_read t).userId = s.userId := by
  unfold MessageStatus.mark_read
  split <;> rfl

theorem mark_delivered_userId (s : MessageStatus) (t : Nat) :
    (s.mark_delivered t).userId = s.userId := by
  unfold MessageStatus.mark_delivered
  split <;> rfl

theorem getOrCreateStatus_userId (db : MessagingDB) (mid u : Nat) :
    (db.getOrCreateStatus mid u).1.userId = u := by
  unfold MessagingDB.getOrCreateStatus
  cases h : db.statuses.find? (fun s => s.messageId = mid && s.userId = u) with
  | none => rfl
  | some s =>
      have hp := List.find?_some h
      simp only [Bool.and_eq_true, decide_eq_true_eq] at hp
      exact hp.2

theorem getOrCreateStatus_other_rows (db : MessagingDB) (mid u : Nat) :
    statusRowsOfOthers (db.getOrCreateStatus mid u).2 u = statusRowsOfOthers db u := by
  unfold MessagingDB.getOrCreateStatus
  cases h : db.statuses.find? (fun s => s.messageId = mid && s.userId = u) with
  | none => simp [statusRowsOfOthers, List.filter_append, MessageStatus.initial]
  | some s => rfl

theorem filter_map_eq_filter {α : Type} (p : α → Bool) (f : α → α)
    (hp : ∀ a, p (f a) = p a) (hf : ∀ a, p a = true → f a = a) (l : List α) :
    (l.map f).filter p = l.filter p := by
  induction l with
  | nil => rfl
  | cons a l ih =>
      rw [List.map_cons, List.filter_cons, List.filter_cons, hp a, ih]
      cases hpa : p a with
      | false => simp
      | true => simp [hf a hpa]

theorem saveStatus_other_rows (db : MessagingDB) (s' : MessageStatus) (u : Nat)
    (hu : s'.userId = u) :
    statusRowsOfOthers (db.saveStatus s') u = statusRowsOfOthers db u := by
  unfold statusRowsOfOthers MessagingDB.saveStatus
  refine filter_map_eq_filter _ _ ?_ ?_ db.statuses
  · intro a
    by_cases hc : (a.messageId = s'.messageId && a.userId = s'.userId) = true
    · have hau : a.userId = s'.userId :=
        decide_eq_true_eq.mp ((Bool.and_eq_true _ _).mp hc).2
      rw [if_pos hc]
      simp [hau]
    · rw [if_neg hc]
  · intro a hpa
    have hne : a.userId ≠ u := by simpa using hpa
    have hc : (a.messageId = s'.messageId && a.userId = s'.userId) = false := by
      have h2 : a.userId ≠ s'.userId := fun h => hne (h.trans hu)
      simp [h2]
    simp [hc]

theorem mark_op_other_rows (db : MessagingDB) (u now mid : Nat)
    (g : Nat → MessageStatus → MessageStatus)
    (hg : ∀ t s, (g t s).userId = s.userId) :
    statusRowsOfOthers
        ((db.getOrCreateStatus mid u).2.saveStatus (g now (db.getOrCreateStatus mid u).1)) u
      = statusRowsOfOthers db u := by
  rw [saveStatus_other_rows _ _ u ((hg _ _).trans (getOrCreateStatus_userId db mid u)),
    getOrCreateStatus_other_rows]

/-- C9: each of the four read/delivered operations (socket and HTTP) leaves the
status rows of every user other than the requester untouched — so the only
rows it can create or mutate carry the requester's own user id — and a message
sent by the requester is always rejected with no store change. -/
theorem C9_status_rows_only_self (db : MessagingDB) (u now mid : Nat) :
    statusRowsOfOthers (ChatConsumer.mark_message_read db u now mid).2 u
      = statusRowsOfOthers db u ∧
    statusRowsOfOthers (ChatConsumer.mark_message_delivered db u now mid).2 u
      = statusRowsOfOthers db u ∧
    statusRowsOfOthers (MessagingViews.mark_message_read db u now mid).2 u
      = statusRowsOfOthers db u ∧
    statusRowsOfOthers (MessagingViews.mark_message_delivered db u now mid).2 u
      = statusRowsOfOthers db u ∧
    (∀ m, db.getMessageForUser mid u = some m → m.senderId = u →
      ChatConsumer.mark_message_read db u now mid = (false, db) ∧
      ChatConsumer.mark_message_delivered db u now mid = (false, db) ∧
      MessagingViews.mark_message_read db u now mid
        = (HttpResp.badRequest "Cannot mark your own message as read", db) ∧
      MessagingViews.mark_message_delivered db u now mid
        = (HttpResp.badRequest "Cannot mark your own message as delivered", db)) := by
  refine ⟨?_, ?_, ?_, ?_, ?_⟩
  · unfold ChatConsumer.mark_message_read
    cases h : db.getMessageForUser mid u with
    | none => rfl
    | some m =>
        by_cases hs : m.senderId = u
        · simp [hs]
        · simp only [hs, if_false]
          exact mark_op_other_rows db u now mid (fun t s => s.mark_read t)
            (fun t s => mark_read_userId s t)
  · unfold ChatConsumer.mark_message_delivered
    cases h : db.getMessageForUser mid u with
    | none => rfl
    | some m =>
        by_cases hs : m.senderId = u
        · simp [hs]
        · simp only [hs, if_false]
          exact mark_op_other_rows db u now mid (fun t s => s.mark_delivered t)
            (fun t s => mark_delivered_userId s t)
  · unfold MessagingViews.mark_message_read
    cases h : db.getMessageForUser mid u with
    | none => rfl
    | some m =>
        by_cases hs : m.senderId = u
        · simp [hs]
        · simp only [hs, if_false]
          exact mark_op_other_rows db u now mid (fun t s => s.mark_read t)
            (fun t s => mark_read_userId s t)
  · unfold MessagingViews.mark_message_delivered
    cases h : db.getMessageForUser mid u with
    | none => rfl
    | some m =>
        by_cases hs : m.senderId = u
        · simp [hs]
        · simp only [hs, if_false]
          exact mark_op_other_rows db u now mid (fun t s => s.mark_delivered t)
            (fun t s => mark_delivered_userId s t)
  · intro m hm hs
    refine ⟨?_, ?_, ?_, ?_⟩ <;>
      simp [ChatConsumer.mark_message_read, ChatConsumer.mark_message_delivered,
        MessagingViews.mark_message_read, MessagingViews.mark_message_delivered, hm, hs]

theorem C9_status_rows_only_self_witness :
    exDB2.getMessageForUser 10 2 = some ⟨10, 1, 2⟩ ∧
    (Message.senderId ⟨10, 1, 2⟩) = 2 ∧
    ChatConsumer.mark_message_read exDB2 2 0 10 = (false, exDB2) ∧
    ChatConsumer.mark_message_delivered exDB2 2 0 10 = (false, exDB2) ∧
    MessagingViews.mark_message_read exDB2 2 0 10
      = (HttpResp.badRequest "Cannot mark your own message as read", exDB2) ∧
    MessagingViews.mark_message_delivered exDB2 2 0 10
      = (HttpResp.badRequest "Cannot mark your own message as delivered", exDB2) := by
  have h := (C9_status_rows_only_self exDB2 2 0 10).2.2.2.2 ⟨10, 1, 2⟩ rfl rfl
  exact ⟨rfl, rfl, h.1, h.2.1, h.2.2.1, h.2.2.2⟩

/-- The post-save signal `create_message_status_records_optimized`
(messaging/models.py): on message creation, bulk-create one `sent` status row
per chat participant other than the sender; `ignore_conflicts=True` skips rows
whose `(message, user)` key already exists. -/
def create_message_status_records_optimized (db : MessagingDB) (m : Message) :
    MessagingDB :=
  match db.findChat m.chatId with
  | none => db
  | some c =>
      let status_records := (c.participants.filter (fun p => p ≠ m.senderId)).map
        (fun p => MessageStatus.initial m.id p)
      let kept := status_records.filter (fun r =>
        !db.statuses.any (fun s => s.messageId = r.messageId && s.userId = r.userId))
      { db with statuses := db.statuses ++ kept }

/-- How many status rows the store holds for a `(message, user)` key. -/
def countStatusRows (db : MessagingDB) (mid uid : Nat) : Nat :=
  (db.statuses.filter (fun s => s.messageId = mid && s.userId = uid)).length

/-- The `unique_together = ['message', 'user']` constraint of `MessageStatus`. -/
def uniqueStatusKeys (db : MessagingDB) : Prop :=
  (db.statuses.map (fun s => (s.messageId, s.userId))).Nodup

theorem length_filter_map_initial (mid p : Nat) (l : List Nat) :
    ((l.map (fun q => MessageStatus.initial mid q)).filter
        (fun s => s.messageId = mid && s.userId = p)).length = l.count p := by
  induction l with
  | nil => rfl
  | cons a l ih =>
      rw [List.map_cons, List.filter_cons]
      by_cases h : a = p
      · rw [if_pos (by simp [MessageStatus.initial, h]), List.length_cons, ih,
          List.count_cons]
        simp [h]
      · rw [if_neg (by simp [MessageStatus.initial, h]), ih, List.count_cons]
        simp [h]

/-- C8: for a freshly created message whose sender is a chat participant, the
signal creates exactly one `sent` status row per participant other than the
sender, creates none for the sender, every created row is a `sent` row of a
non-sender participant, and per-`(message, user)` key uniqueness is
preserved. -/
theorem C8_status_fanout (db : MessagingDB) (m : Message) (c : Chat)
    (hc : db.findChat m.chatId = some c)
    (hnodup : c.participants.Nodup)
    (hfresh : ∀ s ∈ db.statuses, s.messageId ≠ m.id) :
    (∀ p ∈ c.participants, p ≠ m.senderId →
      countStatusRows (create_message_status_records_optimized db m) m.id p = 1) ∧
    countStatusRows (create_message_status_records_optimized db m) m.id m.senderId = 0 ∧
    (∀ s ∈ (create_message_status_records_optimized db m).statuses, s.messageId = m.id →
      s.status = DeliveryState.sent ∧ s.userId ≠ m.senderId ∧ s.userId ∈ c.participants) ∧
    (uniqueStatusKeys db → uniqueStatusKeys (create_message_status_records_optimized db m)) := by
  have hdb' : create_message_status_records_optimized db m
      = { db with statuses := db.statuses ++
          ((c.participants.filter (fun p => p ≠ m.senderId)).map
            (fun p => MessageStatus.initial m.id p)) } := by
    unfold create_message_status_records_optimized
    rw [hc]
    have hkeep : ∀ r ∈ (c.participants.filter (fun p => p ≠ m.senderId)).map
        (fun p => MessageStatus.initial m.id p),
        (!db.statuses.any (fun s => s.messageId = r.messageId && s.userId = r.userId)) = true := by
      intro r hr
      obtain ⟨p, _, rfl⟩ := List.mem_map.mp hr
      simp only [Bool.not_eq_true', List.any_eq_false]
      intro s hs
      simp [MessageStatus.initial, hfresh s hs]
    simp only [List.filter_eq_self.mpr hkeep]
  have hold : ∀ p, (db.statuses.filter
      (fun s => s.messageId = m.id && s.userId = p)).length = 0 := by
    intro p
    rw [List.length_eq_zero, List.filter_eq_nil_iff]
    intro s hs
    simp [hfresh s hs]
  refine ⟨?_, ?_, ?_, ?_⟩
  · intro p hp hps
    rw [hdb']
    unfold countStatusRows
    rw [List.filter_append, List.length_append, hold p, length_filter_map_initial]
    have hmem : p ∈ c.participants.filter (fun q => q ≠ m.senderId) :=
      List.mem_filter.mpr ⟨hp, by simp [hps]⟩
    rw [List.count_eq_one_of_mem (hnodup.filter _) hmem]
  · rw [hdb']
    unfold countStatusRows
    rw [List.filter_append, List.length_append, hold m.senderId, length_filter_map_initial]
    have hnot : m.senderId ∉ c.participants.filter (fun q => q ≠ m.senderId) := by
      intro hmem
      have := (List.mem_filter.mp hmem).2
      simp at this
    rw [List.count_eq_zero_of_not_mem hnot]
  · rw [hdb']
    intro s hs hsid
    rcases List.mem_append.mp hs with h | h
    · exact absurd hsid (hfresh s h)
    · obtain ⟨p, hp, rfl⟩ := List.mem_map.mp h
      obtain ⟨hp1, hp2⟩ := List.mem_filter.mp hp
      refine ⟨rfl, ?_, hp1⟩
      simpa using hp2
  · intro huniq
    rw [hdb']
    unfold uniqueStatusKeys at huniq ⊢
    rw [List.map_append, List.nodup_append]
    have hcomp : ((fun s : MessageStatus => (s.messageId, s.userId)) ∘
        fun p => MessageStatus.initial m.id p) = fun p => ((m.id, p) : Nat × Nat) := rfl
    refine ⟨huniq, ?_, ?_⟩
    · rw [List.map_map, hcomp]
      exact (hnodup.filter _).map (fun a b h => by simpa using h)
    · rw [List.map_map, hcomp]
      intro x hx hx2
      obtain ⟨s, hs, rfl⟩ := List.mem_map.mp hx
      obtain ⟨p, _, hxeq⟩ := List.mem_map.mp hx2
      exact hfresh s hs (congrArg Prod.fst hxeq).symm

/-- Embeds `ChatCreateSerializer.create` (messaging/serializers.py): insert a new chat
row and attach the creator plus the validated participant ids to its
many-to-many participant set (set semantics: duplicates collapse). -/
def ChatCreateSerializer.create (db : MessagingDB) (newId creator : Nat)
    (participant_ids : List Nat) (is_group : Bool) : Chat × MessagingDB :=
  let chat : Chat := ⟨newId, is_group, (creator :: participant_ids).dedup⟩
  (chat, { db with chats := db.chats ++ [chat] })

/-- The non-group chats that have both `u` and `v` among their participants
(the dedup query of `perform_create`, without the new-chat exclusion). -/
def directChatsBetween (db : MessagingDB) (u v : Nat) : List Chat :=
  db.chats.filter (fun c =>
    !c.is_group_chat && c.participants.contains u && c.participants.contains v)

/-- Embeds `ChatListCreateAPIView.perform_create` (messaging/views.py): for a direct
chat, look for a pre-existing direct chat shared with the other participant;
when found, delete the chat just created and return the existing one. -/
def ChatListCreateAPIView.perform_create (db : MessagingDB) (creator : Nat)
    (chat : Chat) : Chat × MessagingDB :=
  if chat.is_group_chat then (chat, db)
  else
    match (chat.participants.filter (fun p => p ≠ creator)).head? with
    | none => (chat, db)
    | some other =>
        match db.chats.find? (fun c =>
            !c.is_group_chat && c.participants.contains creator &&
            c.participants.contains other && c.id ≠ chat.id) with
        | none => (chat, db)
        | some existing =>
            (existing, { db with chats := db.chats.filter (fun c => c.id ≠ chat.id) })

/-- Embeds `ChatListCreateAPIView.create` for a direct chat: validated input is a
single other participant id; the serializer inserts the chat and
`perform_create` resolves duplicates. -/
def ChatListCreateAPIView.createDirectChat (db : MessagingDB)
    (newId creator other : Nat) : Chat × MessagingDB :=
  let p := ChatCreateSerializer.create db newId creator [other] false
  ChatListCreateAPIView.perform_create p.2 creator p.1

theorem find?_eq_of_filter_eq_singleton {α : Type} (p : α → Bool) (l : List α) (a : α)
    (h : l.filter p = [a]) : l.find? p = some a := by
  induction l with
  | nil => simp at h
  | cons b l ih =>
      rw [List.filter_cons] at h
      by_cases hb : p b = true
      · rw [if_pos hb] at h
        injection h with h1 h2
        subst h1
        exact List.find?_cons_of_pos l hb
      · rw [if_neg hb] at h
        rw [List.find?_cons_of_neg l hb]
        exact ih h

/-- C4: when two distinct users already share exactly one direct chat, a
request to create another direct chat between them returns that pre-existing
chat and leaves the store unchanged, so afterwards there is still exactly one
direct chat between them. -/
theorem C4_duplicate_direct_chat (db : MessagingDB) (creator v newId : Nat) (D : Chat)
    (hne : creator ≠ v)
    (hfresh : ∀ c ∈ db.chats, c.id ≠ newId)
    (huniq : directChatsBetween db creator v = [D]) :
    ChatListCreateAPIView.createDirectChat db newId creator v = (D, db) ∧
    directChatsBetween (ChatListCreateAPIView.createDirectChat db newId creator v).2
      creator v = [D] := by
  have hded : (creator :: [v]).dedup = [creator, v] := by
    rw [List.dedup_cons_of_not_mem (by simpa using hne), List.dedup_cons_of_not_mem
      (List.not_mem_nil v), List.dedup_nil]
  have hother : (([creator, v].filter (fun p => p ≠ creator)).head? : Option Nat)
      = some v := by
    simp [List.filter_cons, hne, Ne.symm hne]
  have hpred : ∀ c ∈ db.chats ++ [(⟨newId, false, [creator, v]⟩ : Chat)],
      (!c.is_group_chat && c.participants.contains creator &&
        c.participants.contains v && c.id ≠ newId)
      = ((!c.is_group_chat && c.participants.contains creator &&
        c.participants.contains v) && c.id ≠ newId) := by
    intro c _
    simp [Bool.and_assoc]
  have hfilter : (db.chats ++ [(⟨newId, false, [creator, v]⟩ : Chat)]).filter
      (fun c => !c.is_group_chat && c.participants.contains creator &&
        c.participants.contains v && c.id ≠ newId) = [D] := by
    rw [List.filter_congr hpred, List.filter_append]
    have h1 : db.chats.filter (fun c =>
        (!c.is_group_chat && c.participants.contains creator &&
          c.participants.contains v) && c.id ≠ newId)
        = db.chats.filter (fun c =>
          !c.is_group_chat && c.participants.contains creator &&
          c.participants.contains v) := by
      apply List.filter_congr
      intro c hc
      simp [hfresh c hc]
    have h2 : ([(⟨newId, false, [creator, v]⟩ : Chat)]).filter (fun c =>
        (!c.is_group_chat && c.participants.contains creator &&
          c.participants.contains v) && c.id ≠ newId) = [] := by
      simp
    rw [h1, h2, List.append_nil]
    exact huniq
  have hfind : (db.chats ++ [(⟨newId, false, [creator, v]⟩ : Chat)]).find?
      (fun c => !c.is_group_chat && c.participants.contains creator &&
        c.participants.contains v && c.id ≠ newId) = some D :=
    find?_eq_of_filter_eq_singleton _ _ D hfilter
  have hclean : (db.chats ++ [(⟨newId, false, [creator, v]⟩ : Chat)]).filter
      (fun c => c.id ≠ newId) = db.chats := by
    rw [List.filter_append]
    have h1 : db.chats.filter (fun c => c.id ≠ newId) = db.chats := by
      apply List.filter_eq_self.mpr
      intro c hc
      simp [hfresh c hc]
    have h2 : ([(⟨newId, false, [creator, v]⟩ : Chat)]).filter
        (fun c => c.id ≠ newId) = [] := by simp
    rw [h1, h2, List.append_nil]
  have hmain : ChatListCreateAPIView.createDirectChat db newId creator v = (D, db) := by
    unfold ChatListCreateAPIView.createDirectChat ChatCreateSerializer.create
      ChatListCreateAPIView.perform_create
    simp only [hded, hother, hfind, hclean, Bool.false_eq_true, if_false]
  exact ⟨hmain, by rw [hmain, huniq]⟩

theorem C4_duplicate_direct_chat_witness :
    ((1 : Nat) ≠ 2 ∧ (∀ c ∈ exDB.chats, c.id ≠ 5) ∧
      directChatsBetween exDB 1 2 = [⟨1, false, [1, 2]⟩]) ∧
    ChatListCreateAPIView.createDirectChat exDB 5 1 2 = (⟨1, false, [1, 2]⟩, exDB) := by
  have h := C4_duplicate_direct_chat exDB 1 2 5 ⟨1, false, [1, 2]⟩ (by decide)
    (by intro c hc; simp [exDB] at hc; rw [hc]; decide) rfl
  exact ⟨⟨by decide, by intro c hc; simp [exDB] at hc; rw [hc]; decide, rfl⟩, h.1⟩

theorem C8_status_fanout_witness :
    (exDB.findChat 1 = some ⟨1, false, [1, 2]⟩ ∧ ([1, 2] : List Nat).Nodup ∧
      (∀ s ∈ exDB.statuses, s.messageId ≠ 10)) ∧
    countStatusRows (create_message_status_records_optimized exDB ⟨10, 1, 1⟩) 10 2 = 1 ∧
    countStatusRows (create_message_status_records_optimized exDB ⟨10, 1, 1⟩) 10 1 = 0 := by
  have h := C8_status_fanout exDB ⟨10, 1, 1⟩ ⟨1, false, [1, 2]⟩ rfl (by decide)
    (by intro s hs; simp [exDB] at hs)
  refine ⟨⟨rfl, by decide, by intro s hs; simp [exDB] at hs⟩, ?_, h.2.1⟩
  exact h.1 2 (by decide) (by decide)

/-- An action the chat consumer's `connect` performs, in order. -/
inductive ConnectAction
  | closeConn (code : Nat)
  | groupAdd (group : String)
  | acceptConn
  | sendFrame (f : Frame)
deriving DecidableEq

/-- Embeds `self.chat_group_name = f'chat_{self.chat_id}'`. -/
def chatGroupName (chatId : Nat) : String := "chat_" ++ toString chatId

/-- Embeds `ChatConsumer.get_user_from_token` (messaging/consumers.py): extract the
`token` query parameter (absent → `None`) and run it through the JWT
validation and user lookup, abstracted as `verify` (any exception → `None`). -/
def ChatConsumer.get_user_from_token (verify : String → Option Nat)
    (queryToken : Option String) : Option Nat :=
  match queryToken with
  | none => none
  | some t => verify t

/-- Embeds `ChatConsumer.verify_chat_participant` (messaging/consumers.py):
`Chat.objects.filter(id=chat_id, participants=user).exists()`. -/
def ChatConsumer.verify_chat_participant (db : MessagingDB) (u chatId : Nat) : Bool :=
  db.chats.any (fun c => c.id = chatId && c.participants.contains u)

/-- Embeds `ChatConsumer.connect` (messaging/consumers.py): close 4001 when token
verification fails, close 4003 when the user is not a chat participant, and
only otherwise join the chat group, accept, and confirm. -/
def ChatConsumer.connect (db : MessagingDB) (verify : String → Option Nat)
    (queryToken : Option String) (chatId : Nat) : List ConnectAction :=
  match ChatConsumer.get_user_from_token verify queryToken with
  | none => [ConnectAction.closeConn 4001]
  | some u =>
      if ChatConsumer.verify_chat_participant db u chatId then
        [ConnectAction.groupAdd (chatGroupName chatId),
         ConnectAction.acceptConn,
         ConnectAction.sendFrame (Frame.connectionEstablished chatId u)]
      else [ConnectAction.closeConn 4003]

/-- C7: failed token verification closes the socket with code 4001 and joins no
group; a verified user who is not a chat participant gets the distinct code
4003 and joins no group; a group join appears in the trace only when both
checks passed; a missing token always fails verification; and the two close
codes differ. -/
theorem C7_connect_gating (db : MessagingDB) (verify : String → Option Nat)
    (tok : Option String) (chatId : Nat) :
    (ChatConsumer.get_user_from_token verify tok = none →
      ChatConsumer.connect db verify tok chatId = [ConnectAction.closeConn 4001]) ∧
    (∀ u, ChatConsumer.get_user_from_token verify tok = some u →
      ChatConsumer.verify_chat_participant db u chatId = false →
      ChatConsumer.connect db verify tok chatId = [ConnectAction.closeConn 4003]) ∧
    (∀ g, ConnectAction.groupAdd g ∈ ChatConsumer.connect db verify tok chatId →
      ∃ u, ChatConsumer.get_user_from_token verify tok = some u ∧
        ChatConsumer.verify_chat_participant db u chatId = true) ∧
    (tok = none → ChatConsumer.get_user_from_token verify tok = none) ∧
    (4001 : Nat) ≠ 4003 := by
  refine ⟨?_, ?_, ?_, ?_, by decide⟩
  · intro h
    unfold ChatConsumer.connect
    rw [h]
  · intro u hu hpart
    unfold ChatConsumer.connect
    rw [hu]
    simp [hpart]
  · intro g hg
    unfold ChatConsumer.connect at hg
    cases hu : ChatConsumer.get_user_from_token verify tok with
    | none => rw [hu] at hg; simp at hg
    | some u =>
        rw [hu] at hg
        by_cases hpart : ChatConsumer.verify_chat_participant db u chatId
        · exact ⟨u, rfl, hpart⟩
        · simp [hpart] at hg
  · intro h
    rw [h]
    rfl

theorem C7_connect_gating_witness :
    ChatConsumer.get_user_from_token (fun _ => none) (some "tok") = none ∧
    ChatConsumer.connect exDB (fun _ => none) (some "tok") 1
      = [ConnectAction.closeConn 4001] :=
  ⟨rfl, (C7_connect_gating exDB (fun _ => none) (some "tok") 1).1 rfl⟩

/-- A row of the `notifications` table (notifications/models.py), restricted
to the columns the verified operations consult. -/
structure Notification where
  id : Nat
  recipientId : Nat
  senderId : Option Nat
  notification_type : String
  title : String
  message : String
  is_read : Bool
  read_at : Option Nat
deriving DecidableEq

/-- Embeds `Notification.mark_as_read` (notifications/models.py): flip `is_read` and
stamp `read_at`, only when not already read. -/
def Notification.mark_as_read (now : Nat) (n : Notification) : Notification :=
  if !n.is_read then { n with is_read := true, read_at := some now } else n

/-- A row of `notification_settings` (notifications/models.py), with the model
field defaults. -/
structure NotificationSettings where
  userId : Nat
  likes_enabled : Bool
  comments_enabled : Bool
  follows_enabled : Bool
  mentions_enabled : Bool
  messages_enabled : Bool
  email_notifications : Bool
  push_notifications : Bool
deriving DecidableEq

/-- The model defaults used by `get_or_create`. -/
def NotificationSettings.defaults (u : Nat) : NotificationSettings :=
  ⟨u, true, true, true, true, true, false, true⟩

/-- Embeds `_should_send_notification` (notifications/utils.py): consult the
preference flag matching the type; `system` always passes and unknown types
default to enabled (`preference_map.get(notification_type, True)`). -/
def should_send_notification (s : NotificationSettings) (t : String) : Bool :=
  if t = "like" then s.likes_enabled
  else if t = "comment" then s.comments_enabled
  else if t = "follow" then s.follows_enabled
  else if t = "mention" then s.mentions_enabled
  else if t = "message" then s.messages_enabled
  else if t = "system" then true
  else true

/-- The notification persistence store. -/
structure NotifDB where
  settings : List NotificationSettings
  notifications : List Notification
deriving DecidableEq

/-- Embeds `NotificationSettings.objects.get_or_create(user=recipient)`. -/
def NotifDB.getOrCreateSettings (db : NotifDB) (u : Nat) :
    NotificationSettings × NotifDB :=
  match db.settings.find? (fun s => s.userId = u) with
  | some s => (s, db)
  | none =>
      (NotificationSettings.defaults u,
        { db with settings := db.settings ++ [NotificationSettings.defaults u] })

/-- The channel-layer `group_send` call, as a fallible external operation. -/
def groupBusPublish (publishFails : Bool) : Except String Unit :=
  if publishFails then Except.error "publish failed" else Except.ok ()

/-- Embeds `_send_realtime_notification` (notifications/utils.py): the whole body is
wrapped in `try/except` that logs and `pass`es, so a bus failure never
escapes. -/
def send_realtime_notification (publishFails : Bool) : Except String Unit :=
  match groupBusPublish publishFails with
  | Except.ok _ => Except.ok ()
  | Except.error _ => Except.ok ()

/-- Embeds `create_notification` (notifications/utils.py): get-or-create the
recipient's settings, drop the request when the type's preference is disabled
or when the sender equals the recipient, otherwise persist the notification
and attempt best-effort real-time delivery; the outer `except` turns an
escaped exception into a `None` return without undoing the insert. -/
def create_notification (db : NotifDB) (newId : Nat) (publishFails : Bool)
    (recipient : Nat) (ntype title msg : String) (sender : Option Nat) :
    Option Notification × NotifDB :=
  let p := db.getOrCreateSettings recipient
  if !should_send_notification p.1 ntype then (none, p.2)
  else if sender = some recipient then (none, p.2)
  else
    let n : Notification := ⟨newId, recipient, sender, ntype, title, msg, false, none⟩
    let db2 := { p.2 with notifications := p.2.notifications ++ [n] }
    match send_realtime_notification publishFails with
    | Except.ok _ => (some n, db2)
    | Except.error _ => (none, db2)

theorem getOrCreateSettings_notifications (db : NotifDB) (u : Nat) :
    (db.getOrCreateSettings u).2.notifications = db.notifications := by
  unfold NotifDB.getOrCreateSettings
  cases db.settings.find? (fun s => s.userId = u) <;> rfl

/-- C5: `create_notification` never persists a notification whose sender
equals its recipient (a self-send request is a silent no-op), a disabled
preference flag for the requested type makes it a silent no-op, and the
preference consulted for each named type is exactly that type's own flag,
with `system` always enabled. -/
theorem C5_dispatcher_guards (db : NotifDB) (newId : Nat) (pf : Bool)
    (recipient : Nat) (ntype title msg : String) (sender : Option Nat) :
    (sender = some recipient →
      (create_notification db newId pf recipient ntype title msg sender).1 = none ∧
      (create_notification db newId pf recipient ntype title msg sender).2.notifications
        = db.notifications) ∧
    (∀ n, n ∈ (create_notification db newId pf recipient ntype title msg
        sender).2.notifications →
      n ∈ db.notifications ∨
        (n.senderId ≠ some n.recipientId ∧ n.notification_type = ntype)) ∧
    (should_send_notification (db.getOrCreateSettings recipient).1 ntype = false →
      (create_notification db newId pf recipient ntype title msg sender).1 = none ∧
      (create_notification db newId pf recipient ntype title msg sender).2.notifications
        = db.notifications) ∧
    (∀ so : NotificationSettings,
      should_send_notification so "like" = so.likes_enabled ∧
      should_send_notification so "comment" = so.comments_enabled ∧
      should_send_notification so "follow" = so.follows_enabled ∧
      should_send_notification so "mention" = so.mentions_enabled ∧
      should_send_notification so "message" = so.messages_enabled ∧
      should_send_notification so "system" = true) := by
  refine ⟨?_, ?_, ?_, ?_⟩
  · intro hself
    unfold create_notification
    by_cases hsend : should_send_notification (db.getOrCreateSettings recipient).1 ntype
    · simp [hsend, hself, getOrCreateSettings_notifications]
    · simp [Bool.not_eq_true] at hsend
      simp [hsend, getOrCreateSettings_notifications]
  · intro n hn
    unfold create_notification at hn
    by_cases hsend : should_send_notification (db.getOrCreateSettings recipient).1 ntype
    · by_cases hself : sender = some recipient
      · simp [hsend, hself, getOrCreateSettings_notifications] at hn
        exact Or.inl hn
      · cases hpub : send_realtime_notification pf with
        | ok uu =>
            simp [hsend, hself, hpub, getOrCreateSettings_notifications] at hn
            rcases hn with h | rfl
            · exact Or.inl h
            · exact Or.inr ⟨by simpa using hself, rfl⟩
        | error e =>
            simp [hsend, hself, hpub, getOrCreateSettings_notifications] at hn
            rcases hn with h | rfl
            · exact Or.inl h
            · exact Or.inr ⟨by simpa using hself, rfl⟩
    · simp [Bool.not_eq_true] at hsend
      simp [hsend, getOrCreateSettings_notifications] at hn
      exact Or.inl hn
  · intro hsend
    unfold create_notification
    simp [hsend, getOrCreateSettings_notifications]
  · intro so
    refine ⟨rfl, ?_, ?_, ?_, ?_, ?_⟩ <;> rfl

theorem C5_dispatcher_guards_witness :
    (some 7 = some (7 : Nat)) ∧
    (create_notification ⟨[], []⟩ 1 false 7 "like" "t" "m" (some 7)).1 = none ∧
    (create_notification ⟨[], []⟩ 1 false 7 "like" "t" "m" (some 7)).2.notifications
      = ([] : List Notification) :=
  ⟨rfl, (C5_dispatcher_guards ⟨[], []⟩ 1 false 7 "like" "t" "m" (some 7)).1 rfl⟩

/-- C6: whether or not the bus publish fails, `create_notification` returns
the same result and leaves the same store — the persisted row survives a
publish failure and no exception reaches the caller — and a returned
notification is always present in the resulting store. -/
theorem C6_publish_failure_best_effort (db : NotifDB) (newId : Nat)
    (recipient : Nat) (ntype title msg : String) (sender : Option Nat) (pf : Bool) :
    create_notification db newId pf recipient ntype title msg sender
      = create_notification db newId false recipient ntype title msg sender ∧
    (∀ n, (create_notification db newId pf recipient ntype title msg sender).1 = some n →
      n ∈ (create_notification db newId pf recipient ntype title msg
        sender).2.notifications) := by
  have hsend : ∀ b, send_realtime_notification b = Except.ok () := by
    intro b
    cases b <;> rfl
  constructor
  · unfold create_notification
    rw [hsend pf, hsend false]
  · intro n hn
    unfold create_notification at hn ⊢
    rw [hsend pf] at hn ⊢
    by_cases hs : should_send_notification (db.getOrCreateSettings recipient).1 ntype
    · by_cases hself : sender = some recipient
      · simp [hs, hself] at hn
      · simp only [hs, Bool.not_true, Bool.false_eq_true, if_false, hself] at hn ⊢
        simp only [Option.some.injEq] at hn
        subst hn
        simp
    · simp [Bool.not_eq_true] at hs
      simp [hs] at hn

theorem C6_publish_failure_best_effort_witness :
    (create_notification ⟨[], []⟩ 3 true 7 "like" "t" "m" (some 8)).1
      = some ⟨3, 7, some 8, "like", "t", "m", false, none⟩ ∧
    (⟨3, 7, some 8, "like", "t", "m", false, none⟩ : Notification)
      ∈ (create_notification ⟨[], []⟩ 3 true 7 "like" "t" "m" (some 8)).2.notifications :=
  ⟨rfl, (C6_publish_failure_best_effort ⟨[], []⟩ 3 7 "like" "t" "m" (some 8) true).2
    ⟨3, 7, some 8, "like", "t", "m", false, none⟩ rfl⟩

/-- Embeds `NotificationConsumer.mark_notification_read` (notifications/consumers.py):
resolve the notification by id and recipient; call `mark_as_read` and return
`True` only when it is unread; an already-read notification (like a missing
one) returns `False`. -/
def NotificationConsumer.mark_notification_read (ndb : List Notification)
    (u now nid : Nat) : Bool × List Notification :=
  match ndb.find? (fun n => n.id = nid && n.recipientId = u) with
  | none => (false, ndb)
  | some n =>
      if !n.is_read then
        (true, ndb.map (fun x => if x.id = nid then x.mark_as_read now else x))
      else (false, ndb)

/-- Embeds `NotificationConsumer.handle_mark_read` (notifications/consumers.py):
missing id or a `False` mark result is answered with an error frame, success
with a `mark_read_success` frame. -/
def NotificationConsumer.handle_mark_read (ndb : List Notification) (u now : Nat)
    (notification_id : Option Nat) : List Frame × List Notification :=
  match notification_id with
  | none => ([Frame.errorMsg "Notification ID is required"], ndb)
  | some nid =>
      let r := NotificationConsumer.mark_notification_read ndb u now nid
      if r.1 then ([Frame.markReadSuccess nid], r.2)
      else ([Frame.errorMsg "Failed to mark notification as read"], r.2)

/-- A concrete notification store: user 1 owns notification 1, already read. -/
def exNotifs : List Notification :=
  [⟨1, 1, none, "like", "t", "m", true, some 3⟩]

/-- C2 fails as stated: user 1 sends `mark_read` for their own already-read
notification 1 and receives an error frame, not a no-op success. -/
theorem C2_counterexample :
    (exNotifs.find? (fun n => n.id = 1 && n.recipientId = 1)).map
        (fun n => n.is_read) = some true ∧
    NotificationConsumer.handle_mark_read exNotifs 1 9 (some 1)
      = ([Frame.errorMsg "Failed to mark notification as read"], exNotifs) :=
  ⟨rfl, rfl⟩

/-- C2 (amended): sending `mark_read` for an already-read notification of the
requester changes no state, but it is answered with the error frame
`Failed to mark notification as read` rather than a success. -/
theorem C2_amended_already_read_is_error (ndb : List Notification) (u now nid : Nat)
    (n : Notification)
    (hfind : ndb.find? (fun x => x.id = nid && x.recipientId = u) = some n)
    (hread : n.is_read = true) :
    NotificationConsumer.handle_mark_read ndb u now (some nid)
      = ([Frame.errorMsg "Failed to mark notification as read"], ndb) := by
  simp [NotificationConsumer.handle_mark_read,
    NotificationConsumer.mark_notification_read, hfind, hread]

theorem C2_amended_already_read_is_error_witness :
    (exNotifs.find? (fun x => x.id = 1 && x.recipientId = 1)
        = some ⟨1, 1, none, "like", "t", "m", true, some 3⟩ ∧
      (Notification.is_read ⟨1, 1, none, "like", "t", "m", true, some 3⟩) = true) ∧
    NotificationConsumer.handle_mark_read exNotifs 1 9 (some 1)
      = ([Frame.errorMsg "Failed to mark notification as read"], exNotifs) :=
  ⟨⟨rfl, rfl⟩, C2_amended_already_read_is_error exNotifs 1 9 1
    ⟨1, 1, none, "like", "t", "m", true, some 3⟩ rfl rfl⟩

/-- The module-level binding of the name `timezone` in `notifications/utils.py`.
The module imports only `ContentType`, `settings`, `Notification` and
`NotificationSettings`, so the name is unbound and evaluating `timezone.now()`
there raises `NameError`. -/
def utilsModuleTimezone : Option (Unit → Nat) := none

/-- Embeds `mark_notifications_read` (notifications/utils.py, no filters supplied):
the bulk `update(is_read=True, read_at=timezone.now())` first evaluates
`timezone.now()`, which raises `NameError` because the module never imports
`timezone`; no row is updated. -/
def mark_notifications_read (ndb : List Notification) (u : Nat) :
    Except String (Nat × List Notification) :=
  match utilsModuleTimezone with
  | none => Except.error "NameError: name timezone is not defined"
  | some tznow =>
      let updated := ndb.map (fun n =>
        if n.recipientId = u && !n.is_read then
          { n with is_read := true, read_at := some (tznow ()) } else n)
      Except.ok ((ndb.filter (fun n => n.recipientId = u && !n.is_read)).length, updated)

/-- The HTTP view `mark_all_notifications_read` (notifications/views.py):
wraps the utility in `try/except` and turns any exception into a 500
failure response, leaving the store untouched. -/
def mark_all_notifications_read_view (ndb : List Notification) (u : Nat) :
    HttpResp × List Notification :=
  match mark_notifications_read ndb u with
  | Except.ok r => (HttpResp.ok "Marked notifications as read", r.2)
  | Except.error _ =>
      (HttpResp.serverError "Failed to mark notifications as read", ndb)

/-- Embeds `NotificationConsumer.mark_all_notifications_read`
(notifications/consumers.py): performs the same bulk update but does its own
local `from django.utils import timezone`, so it succeeds. -/
def NotificationConsumer.mark_all_notifications_read (ndb : List Notification)
    (u now : Nat) : Nat × List Notification :=
  ((ndb.filter (fun n => n.recipientId = u && !n.is_read)).length,
    ndb.map (fun n =>
      if n.recipientId = u && !n.is_read then
        { n with is_read := true, read_at := some now } else n))

/-- C10: the utility `mark_notifications_read` always fails with a `NameError`
before updating anything, so the HTTP mark-all-read endpoint always returns
its failure response with the store unchanged, while the socket-side
`mark_all_notifications_read` (with its own local import) really marks every
unread notification of the user read and touches nobody else's rows. -/
theorem C10_mark_all_read_name_error (ndb : List Notification) (u now : Nat) :
    mark_notifications_read ndb u
      = Except.error "NameError: name timezone is not defined" ∧
    mark_all_notifications_read_view ndb u
      = (HttpResp.serverError "Failed to mark notifications as read", ndb) ∧
    (∀ n ∈ (NotificationConsumer.mark_all_notifications_read ndb u now).2,
      n.recipientId = u → n.is_read = true) ∧
    (∀ n ∈ ndb, n.recipientId ≠ u →
      n ∈ (NotificationConsumer.mark_all_notifications_read ndb u now).2) := by
  refine ⟨rfl, rfl, ?_, ?_⟩
  · intro n hn hnu
    unfold NotificationConsumer.mark_all_notifications_read at hn
    obtain ⟨x, hx, hxe⟩ := List.mem_map.mp hn
    by_cases hc : (x.recipientId = u && !x.is_read) = true
    · rw [if_pos hc] at hxe
      rw [← hxe]
    · rw [if_neg hc] at hxe
      subst hxe
      simp [hnu] at hc
      exact hc
  · intro n hn hnu
    unfold NotificationConsumer.mark_all_notifications_read
    apply List.mem_map.mpr
    refine ⟨n, hn, ?_⟩
    rw [if_neg]
    simp [hnu]

theorem C10_mark_all_read_name_error_witness :
    mark_notifications_read exNotifs 1
      = Except.error "NameError: name timezone is not defined" ∧
    mark_all_notifications_read_view exNotifs 1
      = (HttpResp.serverError "Failed to mark notifications as read", exNotifs) ∧
    (∀ n ∈ (NotificationConsumer.mark_all_notifications_read exNotifs 1 9).2,
      n.recipientId = 1 → n.is_read = true) :=
  ⟨(C10_mark_all_read_name_error exNotifs 1 9).1,
    (C10_mark_all_read_name_error exNotifs 1 9).2.1,
    (C10_mark_all_read_name_error exNotifs 1 9).2.2.1⟩

end Connectify
